import Mathlib

/-!
Verification development for the drfc-manager container-orchestration core.

The repository source under version control ships the docker-manager
documentation (drfc_manager/utils/docker/README.md), a pipeline notebook
whose stdout traces record the observable behaviour of a run, a sample
environment file and packaging metadata; the Python bodies of the
Command Executor, the Compose/Swarm managers, the Docker manager facade
and the resource cleaner are not part of the checked-in sources.  Each
component below is therefore modelled from the specification text (and
from the notebook traces where they record concrete behaviour), and the
claims are settled against those models.
-/

namespace Drfc

/-- Modelled from the spec: which container-orchestration tool variant
drives a run (section 3, RunConfiguration.backendStyle). -/
inductive BackendStyle
  | compose
  | swarm
deriving DecidableEq, Repr

/-- Modelled from the spec: the declarative description of one
orchestration run (section 3, RunConfiguration); immutable after
creation. -/
structure RunConfiguration where
  backendStyle : BackendStyle
  projectName : String
  workerCount : Nat
  environmentOverrides : List (String × String)
  baseConfigPaths : List String
  redisEndpoint : Option String
deriving DecidableEq, Repr

/-- Modelled from the spec: the result of one external command invocation
(section 3, CommandResult): exit code, captured output, elapsed time and
an echo of the argument vector executed. -/
structure CommandResult where
  exitCode : Int
  stdout : String
  stderr : String
  elapsedMs : Nat
  argv : List String
deriving DecidableEq, Repr

/-- Modelled from the spec: the error taxonomy of section 7. -/
inductive ErrKind
  | executionError
  | timeoutError
  | composeError
  | swarmError
  | configError
  | resourceError
  | cancelledError
deriving DecidableEq, Repr

/-- Modelled from the spec: a propagated failure record (section 3,
ErrorRecord): category, message, optional originating command result,
optional resource identifier. -/
structure ErrorRecord where
  kind : ErrKind
  message : String
  result : Option CommandResult
  resourceId : Option String
deriving DecidableEq, Repr

/-- Modelled from the spec: observed state of one logical service in a
ServiceStatusSnapshot (section 3). -/
inductive ObservedState
  | running
  | starting
  | stopped
  | missing
  | unknown
deriving DecidableEq, Repr

/-- Modelled from the spec: one row of a ServiceStatusSnapshot — a
logical service name with its observed state and its observed versus
expected replica count (section 3). -/
structure ServiceStatus where
  name : String
  state : ObservedState
  observedReplicas : Nat
  expectedReplicas : Nat
deriving DecidableEq, Repr

/-- Modelled from the spec: a ServiceStatusSnapshot is the mapping from
logical service names to observed states and replica counts
(section 3); recomputed on demand. -/
abbrev ServiceStatusSnapshot := List ServiceStatus

/-- Modelled from the spec: the per-run states of the Orchestration
Facade state machine (section 4.5). -/
inductive RunState
  | idle
  | cleaning
  | rendering
  | deploying
  | scaling
  | polling
  | running
  | stoppingCleaning
  | failed
deriving DecidableEq, Repr

/-! ## Command Executor (spec section 4.1)

The Python body of command_executor.py is not among the checked-in
sources; the executor is modelled from the contract in spec section 4.1.
The environment-determined fate of the child process is made explicit as
a ChildBehavior value so that the executor itself is a pure function of
its inputs and that fate. -/

/-- Modelled from the spec: the fate of the spawned child process, which
the executor cannot influence: the binary may be missing, the spawn may
fail, or the child runs for some time and exits with a code, having
produced output on both streams. -/
inductive ChildBehavior
  | noBinary
  | spawnFail
  | exits (runTimeMs : Nat) (exitCode : Int) (out : String) (err : String)
deriving DecidableEq, Repr

/-- Modelled from the spec (section 4.1): execute spawns one child per
call; it fails with ExecutionError when the binary cannot be located or
the process cannot be spawned, fails with TimeoutError when the timeout
elapses before the child exits (the child is terminated and output
captured so far is kept on the error record), and otherwise returns a
CommandResult, even when the exit code is nonzero. -/
def execute (argv : List String) (timeoutMs : Nat) (b : ChildBehavior) :
    Except ErrorRecord CommandResult :=
  match b with
  | .noBinary =>
      .error { kind := .executionError, message := "binary could not be located",
               result := none, resourceId := none }
  | .spawnFail =>
      .error { kind := .executionError, message := "process could not be spawned",
               result := none, resourceId := none }
  | .exits t c o e =>
      if timeoutMs < t then
        .error { kind := .timeoutError, message := "command timed out",
                 result := some { exitCode := -1, stdout := o, stderr := e,
                                  elapsedMs := timeoutMs, argv := argv },
                 resourceId := none }
      else
        .ok { exitCode := c, stdout := o, stderr := e, elapsedMs := t, argv := argv }

deriving instance DecidableEq for Except

/-- Category of the error, when the outcome is an error. -/
def resultErrKind {α : Type} : Except ErrorRecord α → Option ErrKind
  | .error e => some e.kind
  | .ok _ => none

/-! ## Configuration rendering (spec section 4.3, render)

The Python body of compose_manager.py is not among the checked-in
sources; render is modelled from spec section 4.3: merge the base
configuration files in listed order (later files override earlier keys)
and write the result to a uniquely named temporary location, failing
with ConfigError when no base path resolves or the merge produces an
empty service set. -/

/-- Modelled from the spec: the merged, run-specific configuration file
generated before deployment (section 3, RenderedArtifact), recorded here
by its on-disk path and the service set it defines. -/
structure RenderedArtifact where
  path : String
  services : List String
deriving DecidableEq, Repr

/-- The base configuration files visible on disk: each resolvable path
together with the service names its layer defines. -/
abbrev ConfigFs := List (String × List String)

/-- Resolve the configured base paths against the files on disk, in
listed order, keeping only the layers that resolve. -/
def resolvePaths (fs : ConfigFs) (paths : List String) : List (List String) :=
  paths.filterMap (fun p => (fs.find? (fun e => e.1 = p)).map (fun e => e.2))

/-- Merge the resolved layers into one service set: the union of the
service names, later layers contributing the names not already present. -/
def mergeServices (layers : List (List String)) : List String :=
  layers.foldl (fun acc l => acc ++ l.filter (fun s => ¬ acc.contains s)) []

/-- The uniquely named temporary location of the rendered artifact for a
project (notebook trace: a modified compose file under /tmp). -/
def artifactPathFor (p : String) : String :=
  "/tmp/docker-compose-" ++ p ++ ".yml"

/-- Modelled from the spec (section 4.3): render merges the base
configuration paths and fails with ConfigError when no base path
resolves or the merged service set is empty; otherwise it produces the
on-disk RenderedArtifact. -/
def render (cfg : RunConfiguration) (fs : ConfigFs) :
    Except ErrorRecord RenderedArtifact :=
  let layers := resolvePaths fs cfg.baseConfigPaths
  if layers.isEmpty then
    .error { kind := .configError, message := "no base configuration paths resolve",
             result := none, resourceId := none }
  else
    let svcs := mergeServices layers
    if svcs.isEmpty then
      .error { kind := .configError, message := "merged configuration defines no services",
               result := none, resourceId := none }
    else
      .ok { path := artifactPathFor cfg.projectName, services := svcs }

/-! ## Orchestration Facade (spec section 4.5)

The Python body of docker_manager.py is not among the checked-in
sources; the facade is modelled from the state machine of spec
section 4.5 and the notebook traces.  The outcomes of the external
orchestrator are made explicit as a World value; the facade run is a
pure function of the configuration and that world, and it returns a
trace recording the states entered (each paired with the number of
rendered artifacts then on disk), the Resource Cleaner invocations, the
commands handed to the Command Executor, and the final result.  Per
spec section 7, a ConfigError is surfaced before any command is
executed; the Resource Cleaner acts through the container API and the
filesystem, so its work contributes no Command Executor invocation. -/

/-- Modelled from the spec: the orchestrator-side outcomes one run can
observe: which base configuration files exist, the exit of the up or
deploy command, the exit of the swarm scale command, and the per-service
states and replica counts observed at poll time. -/
structure World where
  fs : ConfigFs
  upExit : Int
  upOut : String
  upErr : String
  scaleExit : Int
  observed : List (String × ObservedState × Nat)
deriving DecidableEq, Repr

/-- The logical service whose replica count follows workerCount
(notebook trace: the RoboMaker workers). -/
def workerService : String := "robomaker"

/-- Expected replica count of a service for a run: workerCount for the
worker service, one for every other service (spec sections 4.3, 8). -/
def expectedReplicasFor (cfg : RunConfiguration) (svc : String) : Nat :=
  if svc = workerService then cfg.workerCount else 1

/-- Build the ServiceStatusSnapshot for the expected services from the
observed orchestrator state; a service the orchestrator does not report
is recorded as missing with zero replicas. -/
def buildSnapshot (cfg : RunConfiguration) (svcs : List String)
    (obs : List (String × ObservedState × Nat)) : ServiceStatusSnapshot :=
  svcs.map (fun s =>
    match obs.find? (fun o => o.1 = s) with
    | some o =>
        { name := s, state := o.2.1, observedReplicas := o.2.2,
          expectedReplicas := expectedReplicasFor cfg s }
    | none =>
        { name := s, state := .missing, observedReplicas := 0,
          expectedReplicas := expectedReplicasFor cfg s })

/-- Every expected service reports running with its expected replica
count (the condition for leaving Polling towards Running). -/
def AllRunning (snap : ServiceStatusSnapshot) : Prop :=
  ∀ s ∈ snap, s.state = ObservedState.running ∧ s.observedReplicas = s.expectedReplicas

instance (snap : ServiceStatusSnapshot) : Decidable (AllRunning snap) :=
  List.decidableBAll _ snap

/-- The error category a backend reports for its own failures. -/
def backendErrKind : BackendStyle → ErrKind
  | .compose => .composeError
  | .swarm => .swarmError

/-- The up verb handed to the Command Executor: compose brings the
project up scaled to workerCount replicas of the worker service; swarm
deploys the stack (spec sections 4.3, 4.4, 6). -/
def upCommand (cfg : RunConfiguration) : List String :=
  match cfg.backendStyle with
  | .compose =>
      ["docker", "compose", "-p", cfg.projectName, "up", "-d",
       "--scale", workerService ++ "=" ++ toString cfg.workerCount]
  | .swarm =>
      ["docker", "stack", "deploy", cfg.projectName]

/-- The swarm post-deploy scale verb (spec section 4.4). -/
def scaleCommand (cfg : RunConfiguration) : List String :=
  ["docker", "service", "scale",
   cfg.projectName ++ "_" ++ workerService ++ "=" ++ toString cfg.workerCount]

/-- The status verb used while polling (spec section 6). -/
def statusCommand (cfg : RunConfiguration) : List String :=
  match cfg.backendStyle with
  | .compose => ["docker", "compose", "-p", cfg.projectName, "ps"]
  | .swarm => ["docker", "stack", "services", cfg.projectName]

/-- The down verb used by stop (spec sections 4.3, 4.4). -/
def downCommand (cfg : RunConfiguration) : List String :=
  match cfg.backendStyle with
  | .compose => ["docker", "compose", "-p", cfg.projectName, "down"]
  | .swarm => ["docker", "stack", "rm", cfg.projectName]

/-- The observable trace of one facade start call: the states entered in
order, each paired with the number of rendered artifacts on disk at that
point, the final state, how often the Resource Cleaner ran, the argument
vectors handed to the Command Executor, the replica count requested for
the worker service, the artifacts still on disk when the call returns,
and the result surfaced to the caller. -/
structure FacadeTrace where
  states : List (RunState × Nat)
  finalState : RunState
  cleanerCalls : Nat
  commands : List (List String)
  scaleRequested : Option Nat
  artifactAtReturn : Nat
  result : Except ErrorRecord ServiceStatusSnapshot
deriving DecidableEq, Repr

/-- Polling phase shared by both backends: build the snapshot and either
reach Running (every expected service running at its expected replica
count) or fail with a startup-timeout backend error and a defensive
cleanup (spec sections 4.3, 4.5). -/
def pollTrace (cfg : RunConfiguration) (w : World) (art : RenderedArtifact)
    (preStates : List (RunState × Nat)) (preCmds : List (List String)) : FacadeTrace :=
  let snap := buildSnapshot cfg art.services w.observed
  if AllRunning snap then
    { states := preStates ++ [(.polling, 0), (.running, 0)], finalState := .running,
      cleanerCalls := 1, commands := preCmds ++ [statusCommand cfg],
      scaleRequested := some cfg.workerCount, artifactAtReturn := 0,
      result := .ok snap }
  else
    { states := preStates ++ [(.polling, 0), (.failed, 0)], finalState := .failed,
      cleanerCalls := 2, commands := preCmds ++ [statusCommand cfg],
      scaleRequested := some cfg.workerCount, artifactAtReturn := 0,
      result := .error { kind := backendErrKind cfg.backendStyle,
                         message := "startup timed out before all services reported running",
                         result := none, resourceId := none } }

/-- Phase after a successful up or deploy command: the artifact has been
deleted (notebook trace: the temporary compose file is cleaned up before
the container status check); swarm issues its separate scale command
first and fails with a SwarmError, plus a defensive cleanup, when the
scale command exits nonzero (spec section 4.4). -/
def afterUpTrace (cfg : RunConfiguration) (w : World) (art : RenderedArtifact) :
    FacadeTrace :=
  match cfg.backendStyle with
  | .compose =>
      pollTrace cfg w art
        [(.cleaning, 0), (.rendering, 0), (.deploying, 1)] [upCommand cfg]
  | .swarm =>
      if w.scaleExit = 0 then
        pollTrace cfg w art
          [(.cleaning, 0), (.rendering, 0), (.deploying, 1), (.scaling, 0)]
          [upCommand cfg, scaleCommand cfg]
      else
        { states := [(.cleaning, 0), (.rendering, 0), (.deploying, 1), (.scaling, 0),
                     (.failed, 0)],
          finalState := .failed, cleanerCalls := 2,
          commands := [upCommand cfg, scaleCommand cfg],
          scaleRequested := some cfg.workerCount, artifactAtReturn := 0,
          result := .error { kind := .swarmError,
                             message := "scale command failed after deploy",
                             result := some { exitCode := w.scaleExit, stdout := "",
                                              stderr := "", elapsedMs := 0,
                                              argv := scaleCommand cfg },
                             resourceId := some cfg.projectName } }

/-- Facade start continued after the render attempt: a render failure
surfaces the originating error after a defensive cleanup and before any
command is executed; on render success the up command runs with the
artifact on disk, a nonzero exit fails the run with the backend error
carrying the failing CommandResult, and the artifact is deleted before
the call returns on every path (spec sections 4.3, 4.5, 7). -/
def startAux (cfg : RunConfiguration) (w : World) :
    Except ErrorRecord RenderedArtifact → FacadeTrace
  | .error e =>
      { states := [(.cleaning, 0), (.rendering, 0), (.failed, 0)], finalState := .failed,
        cleanerCalls := 2, commands := [], scaleRequested := none,
        artifactAtReturn := 0, result := .error e }
  | .ok art =>
      if w.upExit = 0 then afterUpTrace cfg w art
      else
        { states := [(.cleaning, 0), (.rendering, 0), (.deploying, 1), (.failed, 0)],
          finalState := .failed, cleanerCalls := 2, commands := [upCommand cfg],
          scaleRequested := some cfg.workerCount, artifactAtReturn := 0,
          result := .error { kind := backendErrKind cfg.backendStyle,
                             message := "up command failed",
                             result := some { exitCode := w.upExit, stdout := w.upOut,
                                              stderr := w.upErr, elapsedMs := 0,
                                              argv := upCommand cfg },
                             resourceId := none } }

/-- Modelled from the spec (section 4.5): start runs the Resource
Cleaner proactively, renders the artifact, deploys, scales when the
backend is swarm, polls, and reaches Running only when every expected
service reports running; any step failure moves to Failed, runs the
cleaner defensively and surfaces the originating typed error. -/
def start (cfg : RunConfiguration) (w : World) : FacadeTrace :=
  startAux cfg w (render cfg w.fs)

/-- The observable trace of one facade stop call. -/
structure StopTrace where
  states : List (RunState × Nat)
  finalState : RunState
  cleanerCalls : Nat
  commands : List (List String)
  artifactAtReturn : Nat
deriving DecidableEq, Repr

/-- Modelled from the spec (section 4.5): stop invokes the backend down
verb and then the Resource Cleaner, returning to Idle with no artifact
on disk. -/
def stop (cfg : RunConfiguration) : StopTrace :=
  { states := [(.stoppingCleaning, 0), (.idle, 0)], finalState := .idle,
    cleanerCalls := 1, commands := [downCommand cfg], artifactAtReturn := 0 }

/-! ## Swarm backend up (spec section 4.4)

The Python body of swarm_manager.py is not among the checked-in
sources; the swarm up verb is modelled from spec section 4.4: deploy the
stack first, then issue a separate scale call per service; when the
deploy succeeds but some scale calls fail, the operation fails with a
SwarmError naming which services scaled and which did not, the deployed
services stay up, and the stack is not rolled back. -/

/-- Modelled from the spec: the orchestrator-side outcomes a swarm up
can observe: the deploy exit code and the exit code of each per-service
scale call. -/
structure SwarmWorld where
  deployExit : Int
  scaleExits : List (String × Int)
deriving DecidableEq, Repr

/-- Exit code of the scale call for one service; a service the world
does not mention scales cleanly. -/
def scaleExitFor (w : SwarmWorld) (svc : String) : Int :=
  match w.scaleExits.find? (fun e => e.1 = svc) with
  | some e => e.2
  | none => 0

/-- The observable outcome of one swarm up: which services are deployed
and still up at return, which scaled, which did not, whether the stack
was removed again before returning, and the result. -/
structure SwarmUpResult where
  deployed : List String
  scaled : List String
  unscaled : List String
  stackRemoved : Bool
  result : Except ErrorRecord Unit
deriving DecidableEq, Repr

/-- Modelled from the spec (section 4.4): swarm up deploys the stack,
then issues one scale call per service; a deploy failure is a SwarmError
with nothing deployed; scale failures after a successful deploy produce
a SwarmError naming the scaled and the unscaled services, while every
deployed service stays up and no rollback is performed. -/
def swarmUp (cfg : RunConfiguration) (services : List String) (w : SwarmWorld) :
    SwarmUpResult :=
  if w.deployExit = 0 then
    let scaledSvcs := services.filter (fun s => scaleExitFor w s = 0)
    let unscaledSvcs := services.filter (fun s => ¬ scaleExitFor w s = 0)
    if unscaledSvcs.isEmpty then
      { deployed := services, scaled := scaledSvcs, unscaled := [],
        stackRemoved := false, result := .ok () }
    else
      { deployed := services, scaled := scaledSvcs, unscaled := unscaledSvcs,
        stackRemoved := false,
        result := .error { kind := .swarmError,
                           message := "scaled: " ++ String.intercalate "," scaledSvcs
                             ++ "; not scaled: " ++ String.intercalate "," unscaledSvcs,
                           result := none, resourceId := some cfg.projectName } }
  else
    { deployed := [], scaled := [], unscaled := [], stackRemoved := false,
      result := .error { kind := .swarmError, message := "stack deploy failed",
                         result := some { exitCode := w.deployExit, stdout := "",
                                          stderr := "", elapsedMs := 0,
                                          argv := upCommand cfg },
                         resourceId := some cfg.projectName } }

/-! ## Resource Cleaner (spec section 4.2)

The Python body of the resource cleaner is not among the checked-in
sources; cleanupPreviousRun is modelled from spec section 4.2: in order,
remove the project's containers and services, prune its dangling
networks and volumes, delete its leftover artifact files; each step is
best-effort, a failing step contributing a non-fatal ResourceError while
the later steps still run; the sweep never fails the caller. -/

/-- The three cleanup steps, in the order the spec lists them. -/
inductive CleanupStep
  | removeContainers
  | pruneResources
  | deleteArtifacts
deriving DecidableEq, Repr

/-- The project-namespaced resources on the host: containers tagged with
their owning project, networks and volumes named by project, and
leftover artifact files named by project. -/
structure CleanupWorld where
  containers : List (String × String)
  networks : List String
  volumes : List String
  artifactFiles : List String
deriving DecidableEq, Repr

/-- Which of the three best-effort steps fail when attempted. -/
structure CleanupFaults where
  removeFails : Bool
  pruneFails : Bool
  deleteFails : Bool
deriving DecidableEq, Repr

/-- The observable outcome of one cleanup sweep: the host state after
the sweep, the steps attempted in order, and the non-fatal errors
collected. -/
structure CleanupResult where
  world : CleanupWorld
  stepsAttempted : List CleanupStep
  errors : List ErrorRecord
deriving DecidableEq, Repr

/-- The ResourceError logged for one failing cleanup step. -/
def resourceErrorFor (p : String) (msg : String) : ErrorRecord :=
  { kind := .resourceError, message := msg, result := none, resourceId := some p }

/-- Modelled from the spec (section 4.2): cleanupPreviousRun removes the
project's containers, prunes its networks and volumes, and deletes its
leftover artifact files, in that order; a failing step leaves its
resources in place and contributes a ResourceError, and every step is
attempted regardless of earlier failures. -/
def cleanupPreviousRun (p : String) (f : CleanupFaults) (w : CleanupWorld) :
    CleanupResult :=
  let s1 :=
    if f.removeFails then (w, [resourceErrorFor p "failed to remove containers"])
    else ({ w with containers := w.containers.filter (fun c => ¬ c.1 = p) }, [])
  let s2 :=
    if f.pruneFails then (s1.1, [resourceErrorFor p "failed to prune networks and volumes"])
    else
      (⟨s1.1.containers, s1.1.networks.filter (fun n => ¬ n = p),
        s1.1.volumes.filter (fun v => ¬ v = p), s1.1.artifactFiles⟩, [])
  let s3 :=
    if f.deleteFails then (s2.1, [resourceErrorFor p "failed to delete artifact files"])
    else ({ s2.1 with artifactFiles := s2.1.artifactFiles.filter (fun a => ¬ a = p) }, [])
  { world := s3.1,
    stepsAttempted := [.removeContainers, .pruneResources, .deleteArtifacts],
    errors := s1.2 ++ s2.2 ++ s3.2 }

/-! ## Disk-state round trip (spec section 8)

A small state-transformer view of start and stop over the shared
mutable resources the spec names in section 5: the rendered artifacts on
disk (by owning project) and the project-namespaced containers and
networks. -/

/-- The shared on-disk and orchestrator state across runs: projects with
a rendered artifact on disk, containers tagged with their owning
project, and networks named by project. -/
structure DiskState where
  artifacts : List String
  containers : List (String × String)
  networks : List String
deriving DecidableEq, Repr

/-- Remove everything namespaced under one project: its artifact, its
containers, its networks. -/
def cleanProject (p : String) (d : DiskState) : DiskState :=
  { artifacts := d.artifacts.filter (fun a => ¬ a = p),
    containers := d.containers.filter (fun c => ¬ c.1 = p),
    networks := d.networks.filter (fun n => ¬ n = p) }

/-- Modelled from the spec (sections 4.5, 8): the disk-state effect of
one start call: the proactive cleanup clears the project's leftovers; a
successful run leaves the project's containers and network up with no
artifact on disk; a failed run ends after the defensive cleanup with the
project's namespace empty. -/
def startDisk (cfg : RunConfiguration) (w : World) (d : DiskState) : DiskState :=
  let d0 := cleanProject cfg.projectName d
  match (start cfg w).result with
  | .ok snap =>
      ⟨d0.artifacts, d0.containers ++ snap.map (fun s => (cfg.projectName, s.name)),
       cfg.projectName :: d0.networks⟩
  | .error _ => cleanProject cfg.projectName d0

/-- Modelled from the spec (section 4.5): the disk-state effect of one
stop call: the backend down verb and the cleanup sweep together empty
the project's namespace and leave no artifact. -/
def stopDisk (cfg : RunConfiguration) (d : DiskState) : DiskState :=
  cleanProject cfg.projectName d

/-! ## Run lock registry (spec section 5)

Modelled from the spec: the Facade keeps a process-wide registry of the
project names whose run lock is held; a lifecycle verb for a project
runs only while holding that lock, and a second start for a project
whose lock is held fails fast with a ConfigError. -/

/-- The project names whose run lock is currently held. -/
abbrev LockRegistry := List String

/-- Modelled from the spec (section 5): acquire the run lock for a
project, refusing when some verb for that project is already in flight. -/
def tryAcquire (p : String) (r : LockRegistry) : Option LockRegistry :=
  if p ∈ r then none else some (p :: r)

/-- The ConfigError a second caller receives while a run for the same
project is in flight. -/
def busyError (p : String) : ErrorRecord :=
  { kind := .configError, message := "run already in progress",
    result := none, resourceId := some p }

/-- Modelled from the spec (section 5): the outcome of two start calls
whose executions overlap: the first caller holds its run lock when the
second caller tries to acquire; an ok outcome stands for a run that
proceeds to Running, an error outcome for a caller that fails fast. -/
def concurrentStarts (p1 p2 : String) :
    Except ErrorRecord Unit × Except ErrorRecord Unit :=
  match tryAcquire p2 [p1] with
  | none => (.ok (), .error (busyError p2))
  | some _ => (.ok (), .ok ())

/-! ## Project naming (notebook traces, sample environment)

The notebook traces record that run id 0 is targeted as project
deepracer-0 by both the start of the training stack and its stop, and
the sample environment file records DR_RUN_ID=0 as the default run id;
the project name depends on the run id only, never on the model name. -/

/-- Modelled from the spec: the default run id, the DR_RUN_ID value of
the sample environment file. -/
def defaultRunId : Nat := 0

/-- Modelled from the spec: the project name is a function of the run id
alone (notebook trace: Run ID 0 maps to project deepracer-0 on start and
on stop). -/
def projectNameFor (runId : Nat) : String :=
  "deepracer-" ++ toString runId

/-- Modelled from the spec: the run configuration a pipeline builds for
a model and a run id: the model name flows into the environment
overrides only, while the project name comes from the run id. -/
def mkRunConfig (modelName : String) (style : BackendStyle) (runId workerCount : Nat)
    (paths : List String) : RunConfiguration :=
  { backendStyle := style, projectName := projectNameFor runId,
    workerCount := workerCount,
    environmentOverrides :=
      [("DR_RUN_ID", toString runId), ("DR_WORKERS", toString workerCount),
       ("DR_LOCAL_S3_MODEL_PREFIX", modelName)],
    baseConfigPaths := paths, redisEndpoint := none }

/-! ## Concrete example inputs

One concrete run configuration and matching worlds, mirroring the
notebook trace: project deepracer-0, one worker, a compose run whose
services all come up. -/

/-- The run configuration of the notebook trace: compose style, project
deepracer-0, one worker. -/
def cfgEx : RunConfiguration :=
  { backendStyle := .compose, projectName := "deepracer-0", workerCount := 1,
    environmentOverrides := [], baseConfigPaths := ["base.yml"],
    redisEndpoint := none }

/-- A world in which the single base file resolves, the up command
succeeds and both services come up running. -/
def wEx : World :=
  { fs := [("base.yml", ["robomaker", "redis"])], upExit := 0, upOut := "",
    upErr := "", scaleExit := 0,
    observed := [("robomaker", .running, 1), ("redis", .running, 1)] }

/-- A world in which no base configuration file exists on disk. -/
def wNoFs : World :=
  { fs := [], upExit := 0, upOut := "", upErr := "", scaleExit := 0,
    observed := [] }

/-- A swarm world whose deploy succeeds but whose scale call fails for
the redis service only. -/
def swEx : SwarmWorld :=
  { deployExit := 0, scaleExits := [("redis", 1)] }

/-- Cleanup faults in which only the prune step fails. -/
def fEx : CleanupFaults :=
  { removeFails := false, pruneFails := true, deleteFails := false }

/-- A host on which a previous deepracer-0 run left a container, a
network and an artifact file behind. -/
def cwEx : CleanupWorld :=
  { containers := [("deepracer-0", "robomaker")], networks := ["deepracer-0"],
    volumes := [], artifactFiles := ["deepracer-0"] }

/-- A disk state on which a previous deepracer-0 run left traces. -/
def dEx : DiskState :=
  { artifacts := ["deepracer-0"], containers := [("deepracer-0", "robomaker")],
    networks := ["deepracer-0"] }

/-- The snapshot the example run reports: both services running at one
replica each, matching the notebook trace. -/
def snapEx : ServiceStatusSnapshot :=
  [{ name := "robomaker", state := .running, observedReplicas := 1,
     expectedReplicas := 1 },
   { name := "redis", state := .running, observedReplicas := 1,
     expectedReplicas := 1 }]

/-! ## Helper lemmas -/

theorem filter_twice {α : Type} (q : α → Bool) (l : List α) :
    (l.filter q).filter q = l.filter q := by
  induction l with
  | nil => rfl
  | cons a t ih =>
    by_cases h : q a = true
    · simp [List.filter_cons, h, ih]
    · simp [List.filter_cons, h, ih]

theorem buildSnapshot_expected (cfg : RunConfiguration) (svcs : List String)
    (obs : List (String × ObservedState × Nat)) :
    ∀ s ∈ buildSnapshot cfg svcs obs,
      s.expectedReplicas = expectedReplicasFor cfg s.name := by
  intro s hs
  simp only [buildSnapshot, List.mem_map] at hs
  obtain ⟨a, _, rfl⟩ := hs
  cases h : obs.find? (fun o => o.1 = a) with
  | none => simp [h]
  | some o => simp [h]

theorem render_configError (cfg : RunConfiguration) (fs : ConfigFs)
    (h : resolvePaths fs cfg.baseConfigPaths = [] ∨
         mergeServices (resolvePaths fs cfg.baseConfigPaths) = []) :
    ∃ e, render cfg fs = Except.error e ∧ e.kind = ErrKind.configError := by
  unfold render
  by_cases h1 : (resolvePaths fs cfg.baseConfigPaths).isEmpty = true
  · refine ⟨{ kind := .configError, message := "no base configuration paths resolve",
              result := none, resourceId := none }, ?_, rfl⟩
    simp [h1]
  · have h2 : mergeServices (resolvePaths fs cfg.baseConfigPaths) = [] := by
      rcases h with h | h
      · exact absurd (by simp [h]) h1
      · exact h
    refine ⟨{ kind := .configError, message := "merged configuration defines no services",
              result := none, resourceId := none }, ?_, rfl⟩
    simp [h1, h2]

theorem start_artifact_zero (cfg : RunConfiguration) (w : World) :
    (start cfg w).artifactAtReturn = 0 := by
  unfold start
  cases hr : render cfg w.fs with
  | error e => rfl
  | ok art =>
    simp only [startAux]
    by_cases hu : w.upExit = 0
    · simp only [if_pos hu]
      cases hb : cfg.backendStyle with
      | compose =>
        simp only [afterUpTrace, hb, pollTrace]
        split <;> rfl
      | swarm =>
        by_cases hsc : w.scaleExit = 0
        · simp only [afterUpTrace, hb, if_pos hsc, pollTrace]
          split <;> rfl
        · simp only [afterUpTrace, hb, if_neg hsc]
    · simp only [if_neg hu]

/-! ## Claims -/

/-- C1: at most one rendered artifact is on disk at any point of a run;
the run reaches the deploy transition only with a successfully rendered
artifact on disk; the artifact is deleted before the up or down call
returns on every exit path, success or failure; and no state in which
the run ends (Failed, Running, Idle) ever has the artifact on disk. -/
theorem artifact_scoped_lifecycle (cfg : RunConfiguration) (w : World) :
    (∀ pr ∈ (start cfg w).states, pr.2 ≤ 1) ∧
    (∀ pr ∈ (start cfg w).states, pr.1 = RunState.deploying → pr.2 = 1) ∧
    ((∃ pr ∈ (start cfg w).states, pr.1 = RunState.deploying) →
       ∃ a, render cfg w.fs = Except.ok a) ∧
    (start cfg w).artifactAtReturn = 0 ∧
    (∀ pr ∈ (start cfg w).states,
        pr.1 = RunState.failed ∨ pr.1 = RunState.running ∨ pr.1 = RunState.idle →
        pr.2 = 0) ∧
    (stop cfg).artifactAtReturn = 0 := by
  unfold start
  cases hr : render cfg w.fs with
  | error e =>
      simp [startAux, stop]
  | ok art =>
      simp only [startAux]
      by_cases hu : w.upExit = 0
      · simp only [if_pos hu]
        cases hb : cfg.backendStyle with
        | compose =>
            simp only [afterUpTrace, hb, pollTrace]
            split <;> simp [stop]
        | swarm =>
            by_cases hsc : w.scaleExit = 0
            · simp only [afterUpTrace, hb, if_pos hsc, pollTrace]
              split <;> simp [stop]
            · simp [afterUpTrace, hb, if_neg hsc, stop]
      · simp [if_neg hu, stop]

/-- C1 witness: the example run reaches Deploying with exactly one
artifact on disk, ends with none on disk, and its artifact was indeed
rendered successfully. -/
theorem artifact_scoped_lifecycle_witness :
    (start cfgEx wEx).artifactAtReturn = 0 ∧
    ∃ a, render cfgEx wEx.fs = Except.ok a := by
  have h := artifact_scoped_lifecycle cfgEx wEx
  exact ⟨h.2.2.2.1, h.2.2.1 ⟨(RunState.deploying, 1), by decide, rfl⟩⟩

/-- C3: the facade reports Running only when every expected service
reports running at its expected replica count in the snapshot; whenever
a step fails, the run ends Failed, the Resource Cleaner runs a second,
defensive time, and the originating typed error is surfaced: a render
error verbatim, a failed up as the backend error, a failed swarm scale
as a SwarmError. -/
theorem running_requires_all_services (cfg : RunConfiguration) (w : World) :
    ((start cfg w).finalState = RunState.running →
       ∃ snap, (start cfg w).result = Except.ok snap ∧ AllRunning snap) ∧
    (∀ er, (start cfg w).result = Except.error er →
       (start cfg w).finalState = RunState.failed ∧
       (start cfg w).cleanerCalls = 2) ∧
    (∀ er, render cfg w.fs = Except.error er →
       (start cfg w).result = Except.error er) ∧
    (∀ a, render cfg w.fs = Except.ok a → ¬ w.upExit = 0 →
       resultErrKind (start cfg w).result = some (backendErrKind cfg.backendStyle)) ∧
    (∀ a, render cfg w.fs = Except.ok a → w.upExit = 0 →
       cfg.backendStyle = BackendStyle.swarm → ¬ w.scaleExit = 0 →
       resultErrKind (start cfg w).result = some ErrKind.swarmError) := by
  unfold start
  cases hr : render cfg w.fs with
  | error e =>
      simp only [startAux]
      refine ⟨?_, ?_, ?_, ?_, ?_⟩
      · intro h; simp at h
      · intro er _; exact ⟨by trivial, by trivial⟩
      · intro er he; cases he; rfl
      · intro a hok; simp at hok
      · intro a hok; simp at hok
  | ok art =>
      simp only [startAux]
      by_cases hu : w.upExit = 0
      · simp only [if_pos hu]
        cases hb : cfg.backendStyle with
        | compose =>
            simp only [afterUpTrace, hb, pollTrace]
            split
            next hAll =>
              refine ⟨?_, ?_, ?_, ?_, ?_⟩
              · intro _; exact ⟨_, rfl, hAll⟩
              · intro er he; simp at he
              · intro er he; simp at he
              · intro a _ hup; exact absurd hu hup
              · intro a _ _ hsw; simp at hsw
            next hAll =>
              refine ⟨?_, ?_, ?_, ?_, ?_⟩
              · intro h; simp at h
              · intro er _; exact ⟨by trivial, by trivial⟩
              · intro er he; simp at he
              · intro a _ hup; exact absurd hu hup
              · intro a _ _ hsw; simp at hsw
        | swarm =>
            by_cases hsc : w.scaleExit = 0
            · simp only [afterUpTrace, hb, if_pos hsc, pollTrace]
              split
              next hAll =>
                refine ⟨?_, ?_, ?_, ?_, ?_⟩
                · intro _; exact ⟨_, rfl, hAll⟩
                · intro er he; simp at he
                · intro er he; simp at he
                · intro a _ hup; exact absurd hu hup
                · intro a _ _ _ hscn; exact absurd hsc hscn
              next hAll =>
                refine ⟨?_, ?_, ?_, ?_, ?_⟩
                · intro h; simp at h
                · intro er _; exact ⟨by trivial, by trivial⟩
                · intro er he; simp at he
                · intro a _ hup; exact absurd hu hup
                · intro a _ _ _ hscn; exact absurd hsc hscn
            · simp only [afterUpTrace, hb, if_neg hsc]
              refine ⟨?_, ?_, ?_, ?_, ?_⟩
              · intro h; simp at h
              · intro er _; exact ⟨by trivial, by trivial⟩
              · intro er he; simp at he
              · intro a _ hup; exact absurd hu hup
              · intro a _ _ _ _; rfl
      · simp only [if_neg hu]
        refine ⟨?_, ?_, ?_, ?_, ?_⟩
        · intro h; simp at h
        · intro er _; exact ⟨by trivial, by trivial⟩
        · intro er he; simp at he
        · intro a _ _; rfl
        · intro a _ hup0; exact absurd hup0 hu

/-- C3 witness: the example run reaches Running and its snapshot indeed
reports every service running. -/
theorem running_requires_all_services_witness :
    ∃ snap, (start cfgEx wEx).result = Except.ok snap ∧ AllRunning snap :=
  (running_requires_all_services cfgEx wEx).1 (by decide)

/-- C5: when no base configuration path resolves or the merged service
set is empty, start fails with a ConfigError and the Command Executor is
invoked zero times. -/
theorem config_error_precedes_commands (cfg : RunConfiguration) (w : World)
    (h : resolvePaths w.fs cfg.baseConfigPaths = [] ∨
         mergeServices (resolvePaths w.fs cfg.baseConfigPaths) = []) :
    resultErrKind (start cfg w).result = some ErrKind.configError ∧
    (start cfg w).commands = [] := by
  obtain ⟨e, he, hk⟩ := render_configError cfg w.fs h
  unfold start
  rw [he]
  simp only [startAux]
  exact ⟨by simp [resultErrKind, hk], by trivial⟩

/-- C5 witness: with no base configuration file on disk, start fails
with a ConfigError and executes no command. -/
theorem config_error_precedes_commands_witness :
    resultErrKind (start cfgEx wNoFs).result = some ErrKind.configError ∧
    (start cfgEx wNoFs).commands = [] :=
  config_error_precedes_commands cfgEx wNoFs (Or.inl (by decide))

/-- C6: cleanupPreviousRun is idempotent and safe when nothing exists,
attempts its three steps in order on every call, classifies a failing
step as a non-fatal ResourceError while the remaining steps still run,
and never fails the caller. -/
theorem cleanup_best_effort_sweep (p : String) (f : CleanupFaults)
    (w : CleanupWorld) :
    (cleanupPreviousRun p f w).stepsAttempted =
      [CleanupStep.removeContainers, CleanupStep.pruneResources,
       CleanupStep.deleteArtifacts] ∧
    (∀ e ∈ (cleanupPreviousRun p f w).errors, e.kind = ErrKind.resourceError) ∧
    (cleanupPreviousRun p f (cleanupPreviousRun p f w).world).world =
      (cleanupPreviousRun p f w).world ∧
    (¬ f.removeFails = true →
       (cleanupPreviousRun p f w).world.containers =
         w.containers.filter (fun c => ¬ c.1 = p)) ∧
    (¬ f.pruneFails = true →
       (cleanupPreviousRun p f w).world.networks =
         w.networks.filter (fun n => ¬ n = p) ∧
       (cleanupPreviousRun p f w).world.volumes =
         w.volumes.filter (fun v => ¬ v = p)) ∧
    (¬ f.deleteFails = true →
       (cleanupPreviousRun p f w).world.artifactFiles =
         w.artifactFiles.filter (fun a => ¬ a = p)) ∧
    (cleanupPreviousRun p f w).errors.length =
      (if f.removeFails = true then 1 else 0) +
        (if f.pruneFails = true then 1 else 0) +
        (if f.deleteFails = true then 1 else 0) := by
  obtain ⟨fr, fp, fd⟩ := f
  cases fr <;> cases fp <;> cases fd <;>
    simp [cleanupPreviousRun, resourceErrorFor, filter_twice]

/-- C6 witness: a sweep on a host with leftovers, whose prune step
fails: all three steps are attempted, containers and artifact files are
still removed, and exactly one non-fatal error is collected. -/
theorem cleanup_best_effort_sweep_witness :
    (cleanupPreviousRun "deepracer-0" fEx cwEx).stepsAttempted =
      [CleanupStep.removeContainers, CleanupStep.pruneResources,
       CleanupStep.deleteArtifacts] ∧
    (cleanupPreviousRun "deepracer-0" fEx cwEx).world.containers = [] ∧
    (cleanupPreviousRun "deepracer-0" fEx cwEx).world.artifactFiles = [] ∧
    (cleanupPreviousRun "deepracer-0" fEx cwEx).errors.length = 1 := by
  have h := cleanup_best_effort_sweep "deepracer-0" fEx cwEx
  refine ⟨h.1, ?_, ?_, ?_⟩
  · rw [h.2.2.2.1 (by decide)]; decide
  · rw [h.2.2.2.2.2.1 (by decide)]; decide
  · rw [h.2.2.2.2.2.2]; decide

/-- C7: for workerCount at least one, a successful start requested the
worker service scaled to workerCount replicas, and every worker-service
row of the returned snapshot observes exactly workerCount replicas. -/
theorem worker_replicas_match_request (cfg : RunConfiguration) (w : World)
    (snap : ServiceStatusSnapshot) (_hwc : 1 ≤ cfg.workerCount)
    (hok : (start cfg w).result = Except.ok snap) :
    (start cfg w).scaleRequested = some cfg.workerCount ∧
    ∀ s ∈ snap, s.name = workerService →
      s.observedReplicas = cfg.workerCount := by
  revert hok
  unfold start
  cases hr : render cfg w.fs with
  | error e =>
      simp only [startAux]
      intro hok; simp at hok
  | ok art =>
      simp only [startAux]
      by_cases hu : w.upExit = 0
      · simp only [if_pos hu]
        cases hb : cfg.backendStyle with
        | compose =>
            simp only [afterUpTrace, hb, pollTrace]
            split
            next hAll =>
              intro hok
              injection hok with h
              subst h
              refine ⟨rfl, ?_⟩
              intro s hs hname
              have h1 := hAll s hs
              have h2 := buildSnapshot_expected cfg art.services w.observed s hs
              rw [h1.2, h2, hname]
              simp [expectedReplicasFor]
            next hAll =>
              intro hok; simp at hok
        | swarm =>
            by_cases hsc : w.scaleExit = 0
            · simp only [afterUpTrace, hb, if_pos hsc, pollTrace]
              split
              next hAll =>
                intro hok
                injection hok with h
                subst h
                refine ⟨rfl, ?_⟩
                intro s hs hname
                have h1 := hAll s hs
                have h2 := buildSnapshot_expected cfg art.services w.observed s hs
                rw [h1.2, h2, hname]
                simp [expectedReplicasFor]
              next hAll =>
                intro hok; simp at hok
            · simp only [afterUpTrace, hb, if_neg hsc]
              intro hok; simp at hok
      · simp only [if_neg hu]
        intro hok; simp at hok

/-- C7 witness: the example run with one worker requested scale one and
observes one robomaker replica, as the notebook trace records. -/
theorem worker_replicas_match_request_witness :
    (start cfgEx wEx).scaleRequested = some cfgEx.workerCount ∧
    (1 : Nat) ≤ cfgEx.workerCount := by
  have h := worker_replicas_match_request cfgEx wEx snapEx (by decide) (by decide)
  exact ⟨h.1, by decide⟩

/-- C8: for every valid configuration, start followed immediately by
stop leaves no artifact for the project on disk and leaves the
project's container and network namespace empty. -/
theorem start_stop_round_trip (cfg : RunConfiguration) (w : World)
    (d : DiskState) (_hwc : 1 ≤ cfg.workerCount) :
    (∀ a ∈ (stopDisk cfg (startDisk cfg w d)).artifacts,
       ¬ a = cfg.projectName) ∧
    (∀ c ∈ (stopDisk cfg (startDisk cfg w d)).containers,
       ¬ c.1 = cfg.projectName) ∧
    (∀ n ∈ (stopDisk cfg (startDisk cfg w d)).networks,
       ¬ n = cfg.projectName) ∧
    (start cfg w).artifactAtReturn = 0 := by
  refine ⟨?_, ?_, ?_, start_artifact_zero cfg w⟩
  · intro a ha
    simp only [stopDisk, cleanProject, List.mem_filter, decide_eq_true_eq] at ha
    exact ha.2
  · intro c hc
    simp only [stopDisk, cleanProject, List.mem_filter, decide_eq_true_eq] at hc
    exact hc.2
  · intro n hn
    simp only [stopDisk, cleanProject, List.mem_filter, decide_eq_true_eq] at hn
    exact hn.2

/-- C8 witness: the example start and stop round trip, with a valid
one-worker configuration, ends with the artifact absent. -/
theorem start_stop_round_trip_witness :
    (1 : Nat) ≤ cfgEx.workerCount ∧ (start cfgEx wEx).artifactAtReturn = 0 :=
  ⟨by decide, (start_stop_round_trip cfgEx wEx dEx (by decide)).2.2.2⟩

/-- C2: execute raises ExecutionError exactly when the binary cannot be
located or the process cannot be spawned, raises TimeoutError exactly
when the timeout elapses (the child is terminated and the output
captured so far is kept on the error record), and in every other case
returns a CommandResult, including when the child exits with a nonzero
exit code, which is a result and never a raised failure. -/
theorem execute_outcome_trichotomy (argv : List String) (timeoutMs : Nat)
    (b : ChildBehavior) :
    (resultErrKind (execute argv timeoutMs b) = some ErrKind.executionError ↔
       b = ChildBehavior.noBinary ∨ b = ChildBehavior.spawnFail) ∧
    (resultErrKind (execute argv timeoutMs b) = some ErrKind.timeoutError ↔
       ∃ t c o e, b = ChildBehavior.exits t c o e ∧ timeoutMs < t) ∧
    (∀ t c o e, b = ChildBehavior.exits t c o e → t ≤ timeoutMs →
       execute argv timeoutMs b =
         Except.ok { exitCode := c, stdout := o, stderr := e, elapsedMs := t,
                     argv := argv }) ∧
    (∀ t c o e, b = ChildBehavior.exits t c o e → timeoutMs < t →
       ∃ er, execute argv timeoutMs b = Except.error er ∧
         er.kind = ErrKind.timeoutError ∧
         er.result = some { exitCode := -1, stdout := o, stderr := e,
                            elapsedMs := timeoutMs, argv := argv }) := by
  refine ⟨?_, ?_, ?_, ?_⟩
  · cases b with
    | noBinary => simp [execute, resultErrKind]
    | spawnFail => simp [execute, resultErrKind]
    | exits t c o e =>
      by_cases ht : timeoutMs < t
      · simp [execute, resultErrKind, if_pos ht]
      · simp [execute, resultErrKind, if_neg ht]
  · cases b with
    | noBinary => simp [execute, resultErrKind]
    | spawnFail => simp [execute, resultErrKind]
    | exits t c o e =>
      by_cases ht : timeoutMs < t
      · simp only [execute, if_pos ht, resultErrKind]
        constructor
        · intro _; exact ⟨t, c, o, e, rfl, ht⟩
        · intro _; trivial
      · simp only [execute, if_neg ht, resultErrKind]
        constructor
        · intro hc; exact absurd hc (by simp)
        · rintro ⟨t2, c2, o2, e2, heq, hlt⟩
          cases heq
          exact absurd hlt ht
  · rintro t c o e rfl hle
    simp [execute, Nat.not_lt.mpr hle]
  · rintro t c o e rfl hlt
    refine ⟨{ kind := .timeoutError, message := "command timed out",
              result := some { exitCode := -1, stdout := o, stderr := e,
                               elapsedMs := timeoutMs, argv := argv },
              resourceId := none }, ?_, rfl, rfl⟩
    simp [execute, if_pos hlt]

/-- C2 witness: a child that exits with code 2 within the timeout is
returned as a CommandResult, not raised. -/
theorem execute_outcome_trichotomy_witness :
    execute ["docker", "ps"] 5 (ChildBehavior.exits 3 2 "out" "err") =
      Except.ok { exitCode := 2, stdout := "out", stderr := "err", elapsedMs := 3,
                  argv := ["docker", "ps"] } :=
  (execute_outcome_trichotomy ["docker", "ps"] 5
      (ChildBehavior.exits 3 2 "out" "err")).2.2.1 3 2 "out" "err" rfl (by decide)

/-- C4: in the swarm backend scaling is a separate step after a
successful deploy; when the deploy succeeds but some scale calls fail,
the operation fails with a SwarmError, the result names exactly which
services scaled and which did not, every deployed service stays up, and
the stack is not rolled back. -/
theorem swarm_partial_scale_reported (cfg : RunConfiguration)
    (services : List String) (w : SwarmWorld) (hd : w.deployExit = 0)
    (hun : ¬ (services.filter (fun s => ¬ scaleExitFor w s = 0)).isEmpty = true) :
    (swarmUp cfg services w).deployed = services ∧
    (swarmUp cfg services w).scaled =
      services.filter (fun s => scaleExitFor w s = 0) ∧
    (swarmUp cfg services w).unscaled =
      services.filter (fun s => ¬ scaleExitFor w s = 0) ∧
    (swarmUp cfg services w).stackRemoved = false ∧
    ∃ er, (swarmUp cfg services w).result = Except.error er ∧
      er.kind = ErrKind.swarmError := by
  unfold swarmUp
  simp only [hd, if_pos rfl, if_neg hun]
  refine ⟨rfl, rfl, rfl, rfl, ?_⟩
  exact ⟨_, rfl, rfl⟩

/-- C4 witness: two services, deploy succeeds, the scale call fails for
redis only: the error names robomaker as scaled and redis as not
scaled, both services stay deployed, and no rollback happens. -/
theorem swarm_partial_scale_reported_witness :
    (swarmUp cfgEx ["robomaker", "redis"] swEx).deployed = ["robomaker", "redis"] ∧
    (swarmUp cfgEx ["robomaker", "redis"] swEx).scaled = ["robomaker"] ∧
    (swarmUp cfgEx ["robomaker", "redis"] swEx).unscaled = ["redis"] ∧
    (swarmUp cfgEx ["robomaker", "redis"] swEx).stackRemoved = false := by
  have h := swarm_partial_scale_reported cfgEx ["robomaker", "redis"] swEx
    (by decide) (by decide)
  refine ⟨h.1, ?_, ?_, h.2.2.2.1⟩
  · rw [h.2.1]; decide
  · rw [h.2.2.1]; decide

/-- C9: lifecycle verbs for one project run only under that project's
run lock, so a second concurrent start for the same project fails fast
with a ConfigError while exactly one caller proceeds to Running, and
starts under distinct project names are independent. -/
theorem run_lock_mutual_exclusion (p1 p2 : String) :
    (p1 = p2 →
       (concurrentStarts p1 p2).1 = Except.ok () ∧
       (concurrentStarts p1 p2).2 = Except.error (busyError p2) ∧
       (busyError p2).kind = ErrKind.configError) ∧
    (¬ p1 = p2 →
       (concurrentStarts p1 p2).1 = Except.ok () ∧
       (concurrentStarts p1 p2).2 = Except.ok ()) ∧
    (∀ r : LockRegistry, p1 ∈ r → tryAcquire p1 r = none) := by
  refine ⟨?_, ?_, ?_⟩
  · rintro rfl
    refine ⟨?_, ?_, rfl⟩ <;> simp [concurrentStarts, tryAcquire]
  · intro hne
    have h : ¬ p2 = p1 := fun h => hne h.symm
    simp [concurrentStarts, tryAcquire, h]
  · intro r hr
    simp [tryAcquire, hr]

/-- C9 witness: two concurrent starts for project deepracer-0: the
first reaches Running, the second fails fast with the ConfigError. -/
theorem run_lock_mutual_exclusion_witness :
    (concurrentStarts "deepracer-0" "deepracer-0").1 = Except.ok () ∧
    (concurrentStarts "deepracer-0" "deepracer-0").2 =
      Except.error (busyError "deepracer-0") ∧
    (busyError "deepracer-0").kind = ErrKind.configError :=
  (run_lock_mutual_exclusion "deepracer-0" "deepracer-0").1 rfl

/-- C10: the project name is a function of the run id alone, deepracer-
followed by the run id with default run id 0, independent of the model
name; a stop with run id r tears down exactly the namespace a start
with run id r created, and two models started with the same run id
share one project namespace. -/
theorem project_name_determined_by_run_id (m1 m2 : String)
    (st1 st2 : BackendStyle) (r wc1 wc2 : Nat) (ps1 ps2 : List String) :
    (mkRunConfig m1 st1 r wc1 ps1).projectName = projectNameFor r ∧
    (mkRunConfig m1 st1 r wc1 ps1).projectName =
      (mkRunConfig m2 st2 r wc2 ps2).projectName ∧
    projectNameFor defaultRunId = "deepracer-0" ∧
    (∀ (w : World) (d : DiskState),
       ∀ n ∈ (stopDisk (mkRunConfig m2 st2 r wc2 ps2)
                (startDisk (mkRunConfig m1 st1 r wc1 ps1) w d)).networks,
         ¬ n = projectNameFor r) := by
  refine ⟨rfl, rfl, rfl, ?_⟩
  intro w d n hn
  simp only [stopDisk, cleanProject, mkRunConfig, List.mem_filter,
    decide_eq_true_eq] at hn
  exact hn.2

/-- C10 witness: with run id 0 the project name is deepracer-0 for any
model name, matching the notebook trace on start and on stop. -/
theorem project_name_determined_by_run_id_witness :
    (mkRunConfig "rl-deepracer-jv" BackendStyle.compose 0 1 ["base.yml"]).projectName =
      projectNameFor 0 ∧
    (mkRunConfig "rl-deepracer-jv" BackendStyle.compose 0 1 ["base.yml"]).projectName =
      (mkRunConfig "other-model" BackendStyle.compose 0 2 ["base.yml"]).projectName ∧
    projectNameFor defaultRunId = "deepracer-0" := by
  have h := project_name_determined_by_run_id "rl-deepracer-jv" "other-model"
    BackendStyle.compose BackendStyle.compose 0 1 2 ["base.yml"] ["base.yml"]
  exact ⟨h.1, h.2.1, h.2.2.1⟩

end Drfc
